import Mathlib

/-!
Shallow embedding of the captcha bot (src/bot.py and src/db.py).

The `captchas` table of src/db.py is modelled as an association list keyed by
(chat_id, user_id), with the four store operations `save_captcha` (SQL
insert-or-replace), `get_captcha`, `update_status` and `delete_captcha`
translated row by row.  The store-affecting handlers of src/bot.py —
`kick_after_timeout`, `on_any_message`, `on_captcha_answer` (with its core
`answer_submission`) and `start_captcha_flow` — are translated as functions
from a store and the handler's inputs to an outcome and a new store.
Platform calls (ban, restrict, delete message, send, edit markup) never touch
the store; whether such a call succeeds enters as a Boolean parameter, and the
user-visible effect of a handler is recorded in its outcome type.  The random
library primitives `random.randint` and `random.shuffle` are external entropy:
`randint lo hi` is applied to one draw of an explicit entropy stream, and the
final shuffling of the options is an arbitrary permutation parameter.
-/

namespace Captcha

/-- A row of the `captchas` table created by `init_db` (src/db.py):
primary key (chat_id, user_id), fields question, answer, created_at, status. -/
structure Challenge where
  question : String
  answer : String
  created_at : Nat
  status : String
deriving DecidableEq

/-- The `captchas` table: rows keyed by (chat_id, user_id). -/
abbrev Store := List ((Int × Int) × Challenge)

/-- The keys of all rows of the store. -/
def keys (st : Store) : List (Int × Int) :=
  st.map Prod.fst

/-- The primary-key invariant of the `captchas` table: no two rows share a
(chat_id, user_id) key. -/
def keysNodup (st : Store) : Prop :=
  (keys st).Nodup

/-- `save_captcha` (src/db.py): INSERT OR UPDATE ON CONFLICT keyed by
(chat_id, user_id); overwrites question, answer, created_at and status of an
existing row, inserts a fresh row otherwise.  `now` is `int(time.time())`. -/
def save_captcha : Store → Int → Int → String → String → Nat → String → Store
  | [], chat_id, user_id, question, answer, now, status =>
      [((chat_id, user_id), ⟨question, answer, now, status⟩)]
  | p :: rest, chat_id, user_id, question, answer, now, status =>
      if p.1 = (chat_id, user_id) then
        ((chat_id, user_id), ⟨question, answer, now, status⟩) :: rest
      else
        p :: save_captcha rest chat_id user_id question answer now status

/-- `save_captcha` with the Python default argument `status="pending"`. -/
def save_captcha_default (st : Store) (chat_id user_id : Int)
    (question answer : String) (now : Nat) : Store :=
  save_captcha st chat_id user_id question answer now "pending"

/-- `get_captcha` (src/db.py): point lookup by (chat_id, user_id). -/
def get_captcha : Store → Int → Int → Option Challenge
  | [], _, _ => none
  | p :: rest, chat_id, user_id =>
      if p.1 = (chat_id, user_id) then some p.2 else get_captcha rest chat_id user_id

/-- `update_status` (src/db.py): UPDATE the status field of the row keyed by
(chat_id, user_id); rows with other keys are untouched; updating an absent key
changes nothing. -/
def update_status : Store → Int → Int → String → Store
  | [], _, _, _ => []
  | p :: rest, chat_id, user_id, status =>
      (if p.1 = (chat_id, user_id) then
        (p.1, ⟨p.2.question, p.2.answer, p.2.created_at, status⟩)
      else p) :: update_status rest chat_id user_id status

/-- `delete_captcha` (src/db.py): DELETE the row keyed by (chat_id, user_id). -/
def delete_captcha : Store → Int → Int → Store
  | [], _, _ => []
  | p :: rest, chat_id, user_id =>
      if p.1 = (chat_id, user_id) then delete_captcha rest chat_id user_id
      else p :: delete_captcha rest chat_id user_id

/-- One store-mutating database call. -/
inductive DbOp where
  | save (chat_id user_id : Int) (question answer : String) (now : Nat) (status : String)
  | setStatus (chat_id user_id : Int) (status : String)
  | del (chat_id user_id : Int)

/-- Apply one database call to the store. -/
def applyDbOp (st : Store) : DbOp → Store
  | .save chat_id user_id question answer now status =>
      save_captcha st chat_id user_id question answer now status
  | .setStatus chat_id user_id status => update_status st chat_id user_id status
  | .del chat_id user_id => delete_captcha st chat_id user_id

/-- Run a sequence of database calls starting from the empty table that
`init_db` creates. -/
def runDbOps (ops : List DbOp) : Store :=
  ops.foldl applyDbOp []

/-- The library primitive `random.randint(lo, hi)` applied to one raw draw
`v` of the entropy stream: a value in [lo, hi]. -/
def randint (lo hi : Nat) (v : Nat) : Nat :=
  lo + v % (hi + 1 - lo)

/-- `answers.add(s)` on the Python set of option strings (order of the set is
irrelevant to the program: `list(answers)` is shuffled afterwards). -/
def addAnswer (answers : List String) (s : String) : List String :=
  if s ∈ answers then answers else answers ++ [s]

/-- The decoy-collection loop of `generate_captcha` (src/bot.py lines 43-45):
`while len(answers) < 4: answers.add(str(random.randint(2, 18)))`.
The loop is not structurally terminating for every entropy stream, so it is
run on explicit fuel; `i` is the position in the entropy stream. -/
def collectAnswers (stream : Nat → Nat) : Nat → Nat → List String → Option (List String)
  | 0, _, answers => if answers.length < 4 then none else some answers
  | fuel + 1, i, answers =>
      if answers.length < 4 then
        collectAnswers stream fuel (i + 1)
          (addAnswer answers (Nat.repr (randint 2 18 (stream i))))
      else some answers

/-- `generate_captcha` (src/bot.py): two draws in [1, 9] give the question and
the correct answer; the decoy loop fills the option set to 4 strings; the
option list is then shuffled (`shuffle` stands for the external permutation
`random.shuffle` applies).  Returns none when the fuel given to the loop runs
out. -/
def generate_captcha (stream : Nat → Nat) (fuel : Nat)
    (shuffle : List String → List String) :
    Option (String × String × List String) :=
  let a := randint 1 9 (stream 0)
  let b := randint 1 9 (stream 1)
  let correct := a + b
  let question := Nat.repr a ++ " + " ++ Nat.repr b ++ " = ?"
  match collectAnswers stream fuel 2 [Nat.repr correct] with
  | none => none
  | some answers => some (question, Nat.repr correct, shuffle answers)

/-- The state of the option set after `n` iterations of the decoy loop,
ignoring the stopping condition. -/
def iterState (stream : Nat → Nat) : Nat → Nat → List String → List String
  | 0, _, answers => answers
  | n + 1, i, answers =>
      iterState stream n (i + 1) (addAnswer answers (Nat.repr (randint 2 18 (stream i))))

/-- Split off everything before the first occurrence of `sep`; none when
`sep` does not occur. -/
def splitOnceChar (sep : Char) : List Char → Option (List Char × List Char)
  | [] => none
  | c :: cs =>
      if c = sep then some ([], cs)
      else
        match splitOnceChar sep cs with
        | none => none
        | some (l, r) => some (c :: l, r)

/-- Split on `sep` at most `n` times (so at most `n + 1` parts). -/
def splitMaxChars (sep : Char) : Nat → List Char → List (List Char)
  | 0, cs => [cs]
  | n + 1, cs =>
      match splitOnceChar sep cs with
      | none => [cs]
      | some (l, r) => l :: splitMaxChars sep n r

/-- Python `s.split(sep, maxsplit=n)` for a one-character separator. -/
def pySplit (sep : Char) (maxsplit : Nat) (s : String) : List String :=
  (splitMaxChars sep maxsplit s.data).map String.mk

/-- Value of a list of decimal digit characters. -/
def decDigitsVal (cs : List Char) : Nat :=
  cs.foldl (fun acc c => acc * 10 + (c.toNat - 48)) 0

/-- Python `int(s)` on an optionally signed decimal string: none models the
`ValueError` raised on anything else. -/
def pyInt (s : String) : Option Int :=
  match s.data with
  | [] => none
  | '-' :: rest =>
      if rest ≠ [] ∧ rest.all Char.isDigit then some (-(decDigitsVal rest : Int))
      else none
  | '+' :: rest =>
      if rest ≠ [] ∧ rest.all Char.isDigit then some ((decDigitsVal rest : Int))
      else none
  | cs =>
      if cs.all Char.isDigit then some ((decDigitsVal cs : Int))
      else none

/-- What `kick_after_timeout` does, as seen from outside: skip silently, kick
and post a notice naming the removed user, or fail to ban and post a
diagnostic notice carrying the failure reason. -/
inductive TimeoutOutcome where
  | skipAbsent
  | skipNotPending
  | kicked (user_id : Int)
  | banFailed (reason : String)
deriving DecidableEq

/-- The default of the `timeout` parameter of `kick_after_timeout`, also the
value passed at its single call site (src/bot.py line 214). -/
def kick_timeout_default : Nat := 60

/-- `kick_after_timeout` (src/bot.py lines 62-126), after the 60-unit sleep:
re-read the row; skip when absent or not pending; otherwise try
`ban_chat_member` — on success set status kicked and post a notice naming the
user, on failure leave the store alone and post a diagnostic notice with the
reason.  `ban_ok` is whether the ban call succeeds; `reason` is the exception
text reported on failure. -/
def kick_after_timeout (st : Store) (chat_id user_id : Int) (ban_ok : Bool)
    (reason : String) : TimeoutOutcome × Store :=
  match get_captcha st chat_id user_id with
  | none => (.skipAbsent, st)
  | some row =>
      if row.status ≠ "pending" then (.skipNotPending, st)
      else if ban_ok then (.kicked user_id, update_status st chat_id user_id "kicked")
      else (.banFailed reason, st)

/-- `start_captcha_flow` (src/bot.py lines 129-214): persist a fresh pending
challenge.  The generated question and answer are threaded in as arguments
(the entropy of `generate_captcha` is external); restricting the member,
sending the prompt and scheduling the timeout are platform effects that do
not touch the store. -/
def start_captcha_flow (st : Store) (chat_id user_id : Int)
    (question answer : String) (now : Nat) : Store :=
  save_captcha st chat_id user_id question answer now "pending"

/-- What `on_any_message` does, as seen from outside. -/
inductive MessageOutcome where
  | ignoredNoUser
  | ignoredBot
  | allowedSolved
  | deletedPending
  | deletedIssued
deriving DecidableEq

/-- `on_any_message` (src/bot.py lines 290-349) for a non-join message in a
monitored chat: `user` is the sender as (id, is automated) or none.  A solved
row allows the message; otherwise deletion of the message is attempted
(best-effort, no store effect), then a pending row stops the handler and any
other situation starts a fresh captcha flow with the freshly generated
`question`/`answer`. -/
def on_any_message (st : Store) (chat_id : Int) (user : Option (Int × Bool))
    (question answer : String) (now : Nat) : MessageOutcome × Store :=
  match user with
  | none => (.ignoredNoUser, st)
  | some (user_id, user_is_automated) =>
      if user_is_automated then (.ignoredBot, st)
      else
        match get_captcha st chat_id user_id with
        | some row =>
            if row.status = "solved" then (.allowedSolved, st)
            else if row.status = "pending" then (.deletedPending, st)
            else (.deletedIssued, start_captcha_flow st chat_id user_id question answer now)
        | none => (.deletedIssued, start_captcha_flow st chat_id user_id question answer now)

/-- What `on_captcha_answer` does, as seen from outside: the generic
"bad data" alert, an uncaught ValueError escaping from `int(...)`, the
"not for you" alert, the "inactive" notice, the "wrong answer" alert, or
success (carrying whether the unrestrict call succeeded, which only changes
what is logged). -/
inductive AnswerOutcome where
  | badData
  | intError
  | notForYou
  | inactive
  | wrong
  | solved (unrestrict_ok : Bool)
deriving DecidableEq

/-- The core of `on_captcha_answer` (src/bot.py lines 387-459), reached after
parsing and the identity check: re-read the row; reject when absent or not
pending; reject a wrong answer; on the correct answer attempt to lift the
restriction (its failure is swallowed by try/except and only logged, hence
`unrestrict_ok` does not influence the store), set status solved, acknowledge
and best-effort remove the keyboard. -/
def answer_submission (st : Store) (chat_id target_user_id : Int)
    (answer : String) (unrestrict_ok : Bool) : AnswerOutcome × Store :=
  match get_captcha st chat_id target_user_id with
  | none => (.inactive, st)
  | some row =>
      if row.status ≠ "pending" then (.inactive, st)
      else if answer ≠ row.answer then (.wrong, st)
      else (.solved unrestrict_ok, update_status st chat_id target_user_id "solved")

/-- `on_captcha_answer` (src/bot.py lines 352-459): an empty or absent payload
gets the generic alert; the payload is split on ':' with maxsplit 3 and must
unpack into exactly 4 parts, else ValueError is caught and the generic alert
sent; the chat-id and user-id parts then go through `int(...)` OUTSIDE the
try block, so a non-integer part raises an uncaught ValueError; a submitter
different from the target is rejected; otherwise the submission core runs. -/
def on_captcha_answer (st : Store) (data : Option String) (from_user_id : Int)
    (unrestrict_ok : Bool) : AnswerOutcome × Store :=
  match data with
  | none => (.badData, st)
  | some d =>
      if d = "" then (.badData, st)
      else
        match pySplit ':' 3 d with
        | [_, chat_id_str, user_id_str, answer] =>
            match pyInt chat_id_str, pyInt user_id_str with
            | some chat_id, some target_user_id =>
                if from_user_id ≠ target_user_id then (.notForYou, st)
                else answer_submission st chat_id target_user_id answer unrestrict_ok
            | _, _ => (.intError, st)
        | _ => (.badData, st)

theorem keys_nil : keys [] = [] := rfl

theorem keys_cons (p : (Int × Int) × Challenge) (st : Store) :
    keys (p :: st) = p.1 :: keys st := rfl

theorem get_save_same (st : Store) (c u : Int) (q a : String) (now : Nat) (s : String) :
    get_captcha (save_captcha st c u q a now s) c u = some ⟨q, a, now, s⟩ := by
  induction st with
  | nil => simp [save_captcha, get_captcha]
  | cons p rest ih =>
    by_cases h : p.1 = (c, u)
    · simp [save_captcha, h, get_captcha]
    · simp [save_captcha, h, get_captcha, ih]

theorem get_save_other (st : Store) (c u : Int) (q a : String) (now : Nat) (s : String)
    (c' u' : Int) (h : ¬(c' = c ∧ u' = u)) :
    get_captcha (save_captcha st c u q a now s) c' u' = get_captcha st c' u' := by
  have h2 : ¬(c = c' ∧ u = u') := fun hh => h ⟨hh.1.symm, hh.2.symm⟩
  induction st with
  | nil => simp [save_captcha, get_captcha, h, h2]
  | cons p rest ih =>
    by_cases hp : p.1 = (c, u)
    · simp [save_captcha, get_captcha, hp, h, h2]
    · by_cases hq : p.1 = (c', u')
      · simp [save_captcha, get_captcha, hp, hq, h, h2]
      · simp [save_captcha, get_captcha, hp, hq, h, h2, ih]

theorem get_update_same (st : Store) (c u : Int) (s : String) :
    get_captcha (update_status st c u s) c u
      = (get_captcha st c u).map (fun row => ⟨row.question, row.answer, row.created_at, s⟩) := by
  induction st with
  | nil => simp [update_status, get_captcha]
  | cons p rest ih =>
    by_cases h : p.1 = (c, u)
    · simp [update_status, get_captcha, h]
    · simp [update_status, get_captcha, h, ih]

theorem get_update_other (st : Store) (c u : Int) (s : String) (c' u' : Int)
    (h : ¬(c' = c ∧ u' = u)) :
    get_captcha (update_status st c u s) c' u' = get_captcha st c' u' := by
  have h2 : ¬(c = c' ∧ u = u') := fun hh => h ⟨hh.1.symm, hh.2.symm⟩
  induction st with
  | nil => simp [update_status, get_captcha]
  | cons p rest ih =>
    by_cases hp : p.1 = (c, u)
    · simp [update_status, get_captcha, hp, h, h2, ih]
    · by_cases hq : p.1 = (c', u')
      · simp [update_status, get_captcha, hp, hq, h, h2]
      · simp [update_status, get_captcha, hp, hq, h, h2, ih]

theorem update_status_absent (st : Store) (c u : Int) (s : String)
    (h : get_captcha st c u = none) : update_status st c u s = st := by
  induction st with
  | nil => simp [update_status]
  | cons p rest ih =>
    by_cases hp : p.1 = (c, u)
    · simp [get_captcha, hp] at h
    · simp only [get_captcha, hp, if_neg hp] at h
      simp [update_status, hp, ih h]

theorem keys_update_status (st : Store) (c u : Int) (s : String) :
    keys (update_status st c u s) = keys st := by
  induction st with
  | nil => rfl
  | cons p rest ih =>
    by_cases hp : p.1 = (c, u) <;> simp [update_status, keys_cons, hp, ih]

theorem mem_keys_save (st : Store) (c u : Int) (q a : String) (now : Nat) (s : String)
    (x : Int × Int) :
    x ∈ keys (save_captcha st c u q a now s) ↔ x ∈ keys st ∨ x = (c, u) := by
  induction st with
  | nil => simp [save_captcha, keys]
  | cons p rest ih =>
    by_cases hp : p.1 = (c, u)
    · simp only [save_captcha]
      rw [if_pos hp, keys_cons, keys_cons, hp]
      simp only [List.mem_cons]
      tauto
    · simp only [save_captcha]
      rw [if_neg hp, keys_cons, keys_cons]
      simp only [List.mem_cons, ih]
      tauto

theorem keysNodup_save (st : Store) (c u : Int) (q a : String) (now : Nat) (s : String)
    (h : keysNodup st) : keysNodup (save_captcha st c u q a now s) := by
  induction st with
  | nil => simp [save_captcha, keysNodup, keys]
  | cons p rest ih =>
    rw [keysNodup, keys_cons, List.nodup_cons] at h
    by_cases hp : p.1 = (c, u)
    · rw [keysNodup]
      simp only [save_captcha, if_pos hp, keys_cons, List.nodup_cons]
      rw [← hp]
      exact ⟨h.1, h.2⟩
    · rw [keysNodup]
      simp only [save_captcha, if_neg hp, keys_cons, List.nodup_cons]
      refine ⟨?_, ih h.2⟩
      rw [mem_keys_save]
      rintro (hx | hx)
      · exact h.1 hx
      · exact hp hx

theorem mem_keys_delete (st : Store) (c u : Int) (x : Int × Int) :
    x ∈ keys (delete_captcha st c u) → x ∈ keys st := by
  induction st with
  | nil => intro h; simpa [delete_captcha] using h
  | cons p rest ih =>
    intro h
    by_cases hp : p.1 = (c, u)
    · simp only [delete_captcha] at h
      rw [if_pos hp] at h
      rw [keys_cons]
      exact List.mem_cons_of_mem _ (ih h)
    · simp only [delete_captcha] at h
      rw [if_neg hp, keys_cons] at h
      rw [keys_cons]
      rcases List.mem_cons.1 h with h' | h'
      · exact h' ▸ List.mem_cons_self _ _
      · exact List.mem_cons_of_mem _ (ih h')

theorem keysNodup_delete (st : Store) (c u : Int) (h : keysNodup st) :
    keysNodup (delete_captcha st c u) := by
  induction st with
  | nil => simpa [delete_captcha] using h
  | cons p rest ih =>
    rw [keysNodup, keys_cons, List.nodup_cons] at h
    by_cases hp : p.1 = (c, u)
    · rw [delete_captcha, if_pos hp]
      exact ih h.2
    · rw [delete_captcha, if_neg hp, keysNodup, keys_cons, List.nodup_cons]
      exact ⟨fun hx => h.1 (mem_keys_delete rest c u p.1 hx), ih h.2⟩

theorem keysNodup_applyDbOp (st : Store) (op : DbOp) (h : keysNodup st) :
    keysNodup (applyDbOp st op) := by
  cases op with
  | save c u q a now s => exact keysNodup_save st c u q a now s h
  | setStatus c u s =>
    rw [applyDbOp, keysNodup, keys_update_status]
    exact h
  | del c u => exact keysNodup_delete st c u h

theorem keysNodup_foldl (ops : List DbOp) :
    ∀ st, keysNodup st → keysNodup (ops.foldl applyDbOp st) := by
  induction ops with
  | nil => intro st h; exact h
  | cons op rest ih => intro st h; exact ih _ (keysNodup_applyDbOp st op h)

theorem keysNodup_runDbOps (ops : List DbOp) : keysNodup (runDbOps ops) :=
  keysNodup_foldl ops [] (by simp [keysNodup, keys])

theorem countP_key_of_not_mem (st : Store) (k : Int × Int) (h : k ∉ keys st) :
    st.countP (fun p => p.1 == k) = 0 := by
  rw [List.countP_eq_zero]
  intro p hp
  simp only [beq_iff_eq]
  intro he
  exact h (he ▸ List.mem_map_of_mem Prod.fst hp)

theorem countP_key_le_one (st : Store) (k : Int × Int) (h : keysNodup st) :
    st.countP (fun p => p.1 == k) ≤ 1 := by
  induction st with
  | nil => simp
  | cons p rest ih =>
    rw [keysNodup, keys_cons, List.nodup_cons] at h
    rw [List.countP_cons]
    by_cases hk : p.1 = k
    · have hz : rest.countP (fun p => p.1 == k) = 0 :=
        countP_key_of_not_mem rest k (hk ▸ h.1)
      simp [hz, hk]
    · simp only [beq_iff_eq, hk, if_false]
      simpa using ih h.2

/-- Claim C8: the store holds at most one Challenge per (chat_id, user_id)
after any sequence of operations starting from the empty table, and
`save_captcha` is an insert-or-replace: the row for the key afterwards holds
exactly the given question, answer, created_at (the current time passed in)
and status ("pending" under the Python default argument), while rows for all
other keys are unchanged. -/
theorem save_captcha_upsert (st : Store) (c u : Int) (q a : String) (now : Nat) (s : String) :
    (∀ ops : List DbOp, keysNodup (runDbOps ops))
  ∧ (∀ (ops : List DbOp) (k : Int × Int), (runDbOps ops).countP (fun p => p.1 == k) ≤ 1)
  ∧ get_captcha (save_captcha st c u q a now s) c u = some ⟨q, a, now, s⟩
  ∧ (∀ c' u', (c', u') ≠ (c, u) →
      get_captcha (save_captcha st c u q a now s) c' u' = get_captcha st c' u')
  ∧ save_captcha_default st c u q a now = save_captcha st c u q a now "pending" :=
  ⟨keysNodup_runDbOps,
   fun ops k => countP_key_le_one (runDbOps ops) k (keysNodup_runDbOps ops),
   get_save_same st c u q a now s,
   fun c' u' h => get_save_other st c u q a now s c' u' (fun hh => h (Prod.ext hh.1 hh.2)),
   rfl⟩

theorem save_captcha_upsert_witness :
    get_captcha (save_captcha [((1, 2), ⟨"1 + 1 = ?", "2", 3, "pending"⟩)] 1 2 "2 + 2 = ?" "4" 9 "pending") 1 2
      = some ⟨"2 + 2 = ?", "4", 9, "pending"⟩
  ∧ get_captcha (save_captcha [((1, 2), ⟨"1 + 1 = ?", "2", 3, "pending"⟩)] 1 2 "2 + 2 = ?" "4" 9 "pending") 5 6
      = get_captcha [((1, 2), ⟨"1 + 1 = ?", "2", 3, "pending"⟩)] 5 6 :=
  ⟨(save_captcha_upsert [((1, 2), ⟨"1 + 1 = ?", "2", 3, "pending"⟩)] 1 2 "2 + 2 = ?" "4" 9 "pending").2.2.1,
   (save_captcha_upsert [((1, 2), ⟨"1 + 1 = ?", "2", 3, "pending"⟩)] 1 2 "2 + 2 = ?" "4" 9 "pending").2.2.2.1 5 6 (by decide)⟩

/-- Claim C9: `update_status` on an absent key is not an error and leaves the
whole store unchanged; on an existing key it rewrites only that row's status,
keeping its question, answer and created_at, and leaves every other key's
lookup unchanged. -/
theorem update_status_frame (st : Store) (c u : Int) (s : String) :
    (get_captcha st c u = none → update_status st c u s = st)
  ∧ get_captcha (update_status st c u s) c u
      = (get_captcha st c u).map (fun row => ⟨row.question, row.answer, row.created_at, s⟩)
  ∧ (∀ c' u', (c', u') ≠ (c, u) →
      get_captcha (update_status st c u s) c' u' = get_captcha st c' u') :=
  ⟨fun h => update_status_absent st c u s h,
   get_update_same st c u s,
   fun c' u' h => get_update_other st c u s c' u' (fun hh => h (Prod.ext hh.1 hh.2))⟩

theorem update_status_frame_witness :
    update_status ([((1, 2), ⟨"1 + 1 = ?", "2", 3, "pending"⟩)] : Store) 7 8 "solved"
      = [((1, 2), ⟨"1 + 1 = ?", "2", 3, "pending"⟩)]
  ∧ get_captcha (update_status [((1, 2), ⟨"1 + 1 = ?", "2", 3, "pending"⟩)] 1 2 "solved") 5 6
      = get_captcha [((1, 2), ⟨"1 + 1 = ?", "2", 3, "pending"⟩)] 5 6 :=
  ⟨(update_status_frame [((1, 2), ⟨"1 + 1 = ?", "2", 3, "pending"⟩)] 7 8 "solved").1 rfl,
   (update_status_frame [((1, 2), ⟨"1 + 1 = ?", "2", 3, "pending"⟩)] 1 2 "solved").2.2 5 6 (by decide)⟩

/-- Claim C1: for every answer submission on a challenge key: an absent row or
a non-pending status is rejected as inactive with the store unchanged (so a
second correct submission right after a first one observes "solved" and gets
the inactive rejection, never a second solved transition); a value different
from the stored answer is rejected as wrong with the store unchanged; the
stored answer flips the status to "solved" — whether or not the attempt to
lift the posting restriction succeeds. -/
theorem answer_submission_cases (st : Store) (c u : Int) (ans : String) (uo : Bool) :
    ((get_captcha st c u = none ∨ ∃ row, get_captcha st c u = some row ∧ row.status ≠ "pending") →
        answer_submission st c u ans uo = (.inactive, st))
  ∧ (∀ row, get_captcha st c u = some row → row.status = "pending" → ans ≠ row.answer →
        answer_submission st c u ans uo = (.wrong, st))
  ∧ (∀ row, get_captcha st c u = some row → row.status = "pending" → ans = row.answer →
        answer_submission st c u ans uo = (.solved uo, update_status st c u "solved"))
  ∧ (∀ row, get_captcha st c u = some row → row.status = "pending" → ans = row.answer →
        answer_submission (answer_submission st c u ans uo).2 c u ans uo
          = (.inactive, (answer_submission st c u ans uo).2)) := by
  refine ⟨?_, ?_, ?_, ?_⟩
  · rintro (hnone | ⟨row, hrow, hs⟩)
    · simp [answer_submission, hnone]
    · simp [answer_submission, hrow, hs]
  · intro row hrow hp hne
    simp [answer_submission, hrow, hp, hne]
  · intro row hrow hp hans
    simp [answer_submission, hrow, hp, hans]
  · intro row hrow hp hans
    have hsub : answer_submission st c u ans uo = (.solved uo, update_status st c u "solved") := by
      simp [answer_submission, hrow, hp, hans]
    rw [hsub]
    have hget : get_captcha (update_status st c u "solved") c u
        = some ⟨row.question, row.answer, row.created_at, "solved"⟩ := by
      rw [get_update_same, hrow]; rfl
    simp [answer_submission, hget]

theorem answer_submission_cases_witness :
    answer_submission [((0, 1), ⟨"1 + 1 = ?", "2", 0, "pending"⟩)] 0 1 "2" false
      = (.solved false, update_status [((0, 1), ⟨"1 + 1 = ?", "2", 0, "pending"⟩)] 0 1 "solved")
  ∧ answer_submission (answer_submission [((0, 1), ⟨"1 + 1 = ?", "2", 0, "pending"⟩)] 0 1 "2" false).2 0 1 "2" false
      = (.inactive, (answer_submission [((0, 1), ⟨"1 + 1 = ?", "2", 0, "pending"⟩)] 0 1 "2" false).2) :=
  ⟨(answer_submission_cases [((0, 1), ⟨"1 + 1 = ?", "2", 0, "pending"⟩)] 0 1 "2" false).2.2.1
      ⟨"1 + 1 = ?", "2", 0, "pending"⟩ rfl rfl rfl,
   (answer_submission_cases [((0, 1), ⟨"1 + 1 = ?", "2", 0, "pending"⟩)] 0 1 "2" false).2.2.2
      ⟨"1 + 1 = ?", "2", 0, "pending"⟩ rfl rfl rfl⟩

/-- Claim C2: the timeout check is scheduled 60 time-units after issuance; at
fire time an absent row or a non-pending status makes it a no-op with no
state change; a pending row with a successful removal sets status "kicked"
and posts a notice naming the removed user; a failed removal leaves the
status (and the whole store) unchanged and posts a diagnostic notice carrying
the failure reason, with no retry. -/
theorem kick_after_timeout_cases (st : Store) (c u : Int) (reason : String) :
    kick_timeout_default = 60
  ∧ (∀ ban_ok, get_captcha st c u = none →
        kick_after_timeout st c u ban_ok reason = (.skipAbsent, st))
  ∧ (∀ ban_ok row, get_captcha st c u = some row → row.status ≠ "pending" →
        kick_after_timeout st c u ban_ok reason = (.skipNotPending, st))
  ∧ (∀ row, get_captcha st c u = some row → row.status = "pending" →
        kick_after_timeout st c u true reason = (.kicked u, update_status st c u "kicked"))
  ∧ (∀ row, get_captcha st c u = some row → row.status = "pending" →
        kick_after_timeout st c u false reason = (.banFailed reason, st)) := by
  refine ⟨rfl, ?_, ?_, ?_, ?_⟩
  · intro ban_ok hnone
    simp [kick_after_timeout, hnone]
  · intro ban_ok row hrow hs
    simp [kick_after_timeout, hrow, hs]
  · intro row hrow hp
    simp [kick_after_timeout, hrow, hp]
  · intro row hrow hp
    simp [kick_after_timeout, hrow, hp]

theorem kick_after_timeout_cases_witness :
    kick_after_timeout [((3, 4), ⟨"2 + 2 = ?", "4", 0, "pending"⟩)] 3 4 true "reason"
      = (.kicked 4, update_status [((3, 4), ⟨"2 + 2 = ?", "4", 0, "pending"⟩)] 3 4 "kicked")
  ∧ kick_after_timeout [((3, 4), ⟨"2 + 2 = ?", "4", 0, "pending"⟩)] 3 4 false "no rights"
      = (.banFailed "no rights", [((3, 4), ⟨"2 + 2 = ?", "4", 0, "pending"⟩)]) :=
  ⟨(kick_after_timeout_cases [((3, 4), ⟨"2 + 2 = ?", "4", 0, "pending"⟩)] 3 4 "reason").2.2.2.1
      ⟨"2 + 2 = ?", "4", 0, "pending"⟩ rfl rfl,
   (kick_after_timeout_cases [((3, 4), ⟨"2 + 2 = ?", "4", 0, "pending"⟩)] 3 4 "no rights").2.2.2.2
      ⟨"2 + 2 = ?", "4", 0, "pending"⟩ rfl rfl⟩

/-- Claim C6: an answer interaction whose submitting identity differs from the
target identity encoded in the payload is rejected with the transient
"not for you" notice and changes no state, for every store (so regardless of
whether a row exists) and every chosen answer (so regardless of whether it
equals the stored answer). -/
theorem foreign_captcha_rejected (st : Store) (d p0 cs us ans : String)
    (c t from_user_id : Int) (uo : Bool)
    (hd : d ≠ "") (hsplit : pySplit ':' 3 d = [p0, cs, us, ans])
    (hc : pyInt cs = some c) (ht : pyInt us = some t) (hne : from_user_id ≠ t) :
    on_captcha_answer st (some d) from_user_id uo = (.notForYou, st) := by
  simp [on_captcha_answer, hd, hsplit, hc, ht, hne]

theorem foreign_captcha_rejected_witness :
    on_captcha_answer [] (some "captcha:1:2:3") 99 false = (.notForYou, []) :=
  foreign_captcha_rejected [] "captcha:1:2:3" "captcha" "1" "2" "3" 1 2 99 false
    (by decide) rfl rfl rfl (by decide)

/-- Claim C5 counterexample: the payload "captcha:x:5:7" has four
':'-separated fields but a non-integer chat-id field; the handler does not
produce the generic "bad data" notice — `int("x")` raises an uncaught
ValueError (the conversion sits outside the try/except) — although the store
is indeed unchanged. -/
theorem malformed_payload_counterexample :
    on_captcha_answer [] (some "captcha:x:5:7") 5 false = (.intError, [])
  ∧ AnswerOutcome.intError ≠ AnswerOutcome.badData := by
  exact ⟨rfl, by decide⟩

/-- Claim C5 (amended): an absent or empty payload and a payload splitting
into fewer than four ':'-fields are rejected with the generic error notice
and no state change; a four-field payload whose chat-id or user-id field is
not an integer instead raises an uncaught ValueError from `int(...)` —
producing no notice — but equally performs no further processing and no
state change. -/
theorem malformed_payload_cases (st : Store) (from_user_id : Int) (uo : Bool) :
    on_captcha_answer st none from_user_id uo = (.badData, st)
  ∧ on_captcha_answer st (some "") from_user_id uo = (.badData, st)
  ∧ (∀ d, d ≠ "" → (pySplit ':' 3 d).length ≠ 4 →
      on_captcha_answer st (some d) from_user_id uo = (.badData, st))
  ∧ (∀ d p0 cs us ans, d ≠ "" → pySplit ':' 3 d = [p0, cs, us, ans] →
      pyInt cs = none ∨ pyInt us = none →
      on_captcha_answer st (some d) from_user_id uo = (.intError, st)) := by
  refine ⟨rfl, rfl, ?_, ?_⟩
  · intro d hd hlen
    rcases hparts : pySplit ':' 3 d with _ | ⟨x1, _ | ⟨x2, _ | ⟨x3, _ | ⟨x4, rest⟩⟩⟩⟩ <;>
      rw [hparts] at hlen <;> simp [on_captcha_answer, hd, hparts]
    · cases rest with
      | nil => simp at hlen
      | cons y ys => simp
  · intro d p0 cs us ans hd hsplit hint
    rcases hint with hc | hu
    · cases hu : pyInt us <;> simp [on_captcha_answer, hd, hsplit, hc, hu]
    · cases hc : pyInt cs <;> simp [on_captcha_answer, hd, hsplit, hc, hu]

theorem malformed_payload_cases_witness :
    on_captcha_answer [] (some "captcha:12") 5 false = (.badData, [])
  ∧ on_captcha_answer [] (some "captcha:5:x:7") 5 false = (.intError, []) :=
  ⟨(malformed_payload_cases [] 5 false).2.2.1 "captcha:12" (by decide) (by decide),
   (malformed_payload_cases [] 5 false).2.2.2 "captcha:5:x:7" "captcha" "5" "x" "7"
      (by decide) rfl (Or.inr rfl)⟩

/-- Claim C4 counterexample: a message from a non-automated sender whose
Challenge row exists with status "kicked" (neither pending nor solved) does
trigger issuance of a new challenge: the handler starts a fresh captcha flow
and the row is overwritten with a new pending challenge, refuting "a new
challenge is issued only when the Challenge row is absent". -/
theorem message_issues_on_kicked_row :
    on_any_message [((1, 2), ⟨"q", "a", 0, "kicked"⟩)] 1 (some (2, false)) "q2" "a2" 5
      = (.deletedIssued, [((1, 2), ⟨"q2", "a2", 5, "pending"⟩)])
  ∧ ([((1, 2), ⟨"q2", "a2", 5, "pending"⟩)] : Store) ≠ [((1, 2), ⟨"q", "a", 0, "kicked"⟩)] := by
  exact ⟨rfl, by decide⟩

/-- Claim C4 (amended): for an ordinary message from a non-automated sender:
a "solved" row means nothing is done; otherwise deletion of the message is
attempted, and a "pending" row stops the handler with no issuance and no
store change, while an absent row — or a row whose status is neither
"pending" nor "solved" (e.g. "kicked") — triggers issuance of a fresh pending
challenge for the sender. -/
theorem on_any_message_cases (st : Store) (chat_id user_id : Int) (q a : String) (now : Nat) :
    on_any_message st chat_id none q a now = (.ignoredNoUser, st)
  ∧ on_any_message st chat_id (some (user_id, true)) q a now = (.ignoredBot, st)
  ∧ (∀ row, get_captcha st chat_id user_id = some row → row.status = "solved" →
      on_any_message st chat_id (some (user_id, false)) q a now = (.allowedSolved, st))
  ∧ (∀ row, get_captcha st chat_id user_id = some row → row.status = "pending" →
      on_any_message st chat_id (some (user_id, false)) q a now = (.deletedPending, st))
  ∧ (get_captcha st chat_id user_id = none →
      on_any_message st chat_id (some (user_id, false)) q a now
        = (.deletedIssued, save_captcha st chat_id user_id q a now "pending"))
  ∧ (∀ row, get_captcha st chat_id user_id = some row →
      row.status ≠ "solved" → row.status ≠ "pending" →
      on_any_message st chat_id (some (user_id, false)) q a now
        = (.deletedIssued, save_captcha st chat_id user_id q a now "pending")) := by
  refine ⟨rfl, rfl, ?_, ?_, ?_, ?_⟩
  · intro row hrow hs
    simp [on_any_message, hrow, hs]
  · intro row hrow hp
    have hs : row.status ≠ "solved" := by rw [hp]; decide
    simp [on_any_message, hrow, hp, hs]
  · intro hnone
    simp [on_any_message, hnone, start_captcha_flow]
  · intro row hrow hs hp
    simp [on_any_message, hrow, hs, hp, start_captcha_flow]

theorem on_any_message_cases_witness :
    on_any_message [((1, 2), ⟨"q", "a", 0, "pending"⟩)] 1 (some (2, false)) "q2" "a2" 5
      = (.deletedPending, [((1, 2), ⟨"q", "a", 0, "pending"⟩)])
  ∧ on_any_message [] 1 (some (2, false)) "q2" "a2" 5
      = (.deletedIssued, save_captcha [] 1 2 "q2" "a2" 5 "pending") :=
  ⟨(on_any_message_cases [((1, 2), ⟨"q", "a", 0, "pending"⟩)] 1 2 "q2" "a2" 5).2.2.2.1
      ⟨"q", "a", 0, "pending"⟩ rfl rfl,
   (on_any_message_cases [] 1 2 "q2" "a2" 5).2.2.2.2.1 rfl⟩

/-- Claim C7: both the answer path and the timeout path re-read the status
and abandon their action when it is no longer "pending": once a correct
answer's solved write is in the store, a later timeout check performs no
removal and no status write; and once a timeout kick's write is in the store,
a later answer submission is rejected as inactive — so at most one terminal
transition (solved or kicked) occurs per challenge instance. -/
theorem race_single_terminal (st : Store) (c u : Int) (row : Challenge)
    (ans reason : String) (uo ban_ok : Bool)
    (hrow : get_captcha st c u = some row) (hp : row.status = "pending")
    (hans : ans = row.answer) :
    kick_after_timeout (answer_submission st c u ans uo).2 c u ban_ok reason
        = (.skipNotPending, (answer_submission st c u ans uo).2)
  ∧ answer_submission (kick_after_timeout st c u true reason).2 c u ans uo
        = (.inactive, (kick_after_timeout st c u true reason).2) := by
  have hsub : answer_submission st c u ans uo = (.solved uo, update_status st c u "solved") := by
    simp [answer_submission, hrow, hp, hans]
  have hkick : kick_after_timeout st c u true reason
      = (.kicked u, update_status st c u "kicked") := by
    simp [kick_after_timeout, hrow, hp]
  constructor
  · rw [hsub]
    have hget : get_captcha (update_status st c u "solved") c u
        = some ⟨row.question, row.answer, row.created_at, "solved"⟩ := by
      rw [get_update_same, hrow]; rfl
    simp [kick_after_timeout, hget]
  · rw [hkick]
    have hget : get_captcha (update_status st c u "kicked") c u
        = some ⟨row.question, row.answer, row.created_at, "kicked"⟩ := by
      rw [get_update_same, hrow]; rfl
    simp [answer_submission, hget]

theorem race_single_terminal_witness :
    kick_after_timeout (answer_submission [((0, 1), ⟨"1 + 1 = ?", "2", 0, "pending"⟩)] 0 1 "2" true).2
        0 1 true "late"
      = (.skipNotPending, (answer_submission [((0, 1), ⟨"1 + 1 = ?", "2", 0, "pending"⟩)] 0 1 "2" true).2)
  ∧ answer_submission (kick_after_timeout [((0, 1), ⟨"1 + 1 = ?", "2", 0, "pending"⟩)] 0 1 true "late").2
        0 1 "2" true
      = (.inactive, (kick_after_timeout [((0, 1), ⟨"1 + 1 = ?", "2", 0, "pending"⟩)] 0 1 true "late").2) :=
  race_single_terminal [((0, 1), ⟨"1 + 1 = ?", "2", 0, "pending"⟩)] 0 1
    ⟨"1 + 1 = ?", "2", 0, "pending"⟩ "2" "late" true true rfl rfl rfl

theorem randint_mem (lo hi v : Nat) (h : lo ≤ hi) :
    lo ≤ randint lo hi v ∧ randint lo hi v ≤ hi := by
  have hm : v % (hi + 1 - lo) < hi + 1 - lo := Nat.mod_lt _ (by omega)
  unfold randint
  omega

theorem addAnswer_mem (answers : List String) (s x : String) :
    x ∈ addAnswer answers s ↔ x ∈ answers ∨ x = s := by
  by_cases h : s ∈ answers
  · rw [addAnswer, if_pos h]
    exact ⟨Or.inl, fun hx => hx.elim id (fun he => he ▸ h)⟩
  · rw [addAnswer, if_neg h]
    simp

theorem addAnswer_nodup (answers : List String) (s : String) (h : answers.Nodup) :
    (addAnswer answers s).Nodup := by
  by_cases hm : s ∈ answers
  · rw [addAnswer, if_pos hm]; exact h
  · rw [addAnswer, if_neg hm, List.nodup_append]
    exact ⟨h, List.nodup_singleton s, fun x hx hxs => by simp at hxs; exact hm (hxs ▸ hx)⟩

theorem addAnswer_subset (answers : List String) (s : String) (L : List String)
    (hsub : answers ⊆ L) (hs : s ∈ L) : addAnswer answers s ⊆ L := by
  intro x hx
  rcases (addAnswer_mem answers s x).1 hx with h | h
  · exact hsub h
  · exact h ▸ hs

theorem addAnswer_length_le (answers : List String) (s : String) :
    (addAnswer answers s).length ≤ answers.length + 1 := by
  by_cases h : s ∈ answers <;> simp [addAnswer, h]

theorem addAnswer_length_of_not_mem (answers : List String) (s : String)
    (h : s ∉ answers) : (addAnswer answers s).length = answers.length + 1 := by
  simp [addAnswer, h]

theorem collectAnswers_done (stream : Nat → Nat) (fuel i : Nat) (answers : List String)
    (h : 4 ≤ answers.length) : collectAnswers stream fuel i answers = some answers := by
  cases fuel <;> simp [collectAnswers, Nat.not_lt.2 h]

theorem collectAnswers_some_props (stream : Nat → Nat) :
    ∀ fuel i answers res, collectAnswers stream fuel i answers = some res →
      (∀ x ∈ answers, x ∈ res)
      ∧ (answers.Nodup → res.Nodup)
      ∧ (∀ x ∈ res, x ∈ answers ∨ ∃ k, 2 ≤ k ∧ k ≤ 18 ∧ x = Nat.repr k)
      ∧ (answers.length ≤ 4 → res.length = 4) := by
  intro fuel
  induction fuel with
  | zero =>
    intro i answers res h
    by_cases hl : answers.length < 4
    · simp [collectAnswers, hl] at h
    · simp only [collectAnswers, if_neg hl, Option.some.injEq] at h
      subst h
      exact ⟨fun x hx => hx, id, fun x hx => Or.inl hx, fun h4 => by omega⟩
  | succ fuel ih =>
    intro i answers res h
    by_cases hl : answers.length < 4
    · simp only [collectAnswers, if_pos hl] at h
      obtain ⟨h1, h2, h3, h4⟩ := ih (i + 1) (addAnswer answers (Nat.repr (randint 2 18 (stream i)))) res h
      have hr2 : 2 ≤ randint 2 18 (stream i) ∧ randint 2 18 (stream i) ≤ 18 :=
        randint_mem 2 18 (stream i) (by omega)
      refine ⟨fun x hx => h1 x ((addAnswer_mem _ _ _).2 (Or.inl hx)),
              fun hn => h2 (addAnswer_nodup _ _ hn),
              fun x hx => ?_,
              fun hle => h4 (le_trans (addAnswer_length_le _ _) (by omega))⟩
      rcases h3 x hx with hx' | hk
      · rcases (addAnswer_mem _ _ _).1 hx' with hm | hm
        · exact Or.inl hm
        · exact Or.inr ⟨randint 2 18 (stream i), hr2.1, hr2.2, hm⟩
      · exact Or.inr hk
    · simp only [collectAnswers, if_neg hl, Option.some.injEq] at h
      subst h
      exact ⟨fun x hx => hx, id, fun x hx => Or.inl hx, fun h4 => by omega⟩

theorem mem_iterState (stream : Nat → Nat) :
    ∀ n i answers x, x ∈ answers → x ∈ iterState stream n i answers := by
  intro n
  induction n with
  | zero => intro i answers x hx; exact hx
  | succ n ih =>
    intro i answers x hx
    rw [iterState]
    exact ih (i + 1) _ x ((addAnswer_mem _ _ _).2 (Or.inl hx))

theorem draw_mem_iterState (stream : Nat → Nat) :
    ∀ n i answers j, j < n →
      Nat.repr (randint 2 18 (stream (i + j))) ∈ iterState stream n i answers := by
  intro n
  induction n with
  | zero => intro i answers j hj; exact absurd hj (Nat.not_lt_zero j)
  | succ n ih =>
    intro i answers j hj
    cases j with
    | zero =>
      rw [iterState]
      exact mem_iterState stream n (i + 1) _ _
        (by rw [Nat.add_zero]; exact (addAnswer_mem _ _ _).2 (Or.inr rfl))
    | succ j' =>
      have h := ih (i + 1) (addAnswer answers (Nat.repr (randint 2 18 (stream i)))) j' (by omega)
      rw [iterState]
      have harith : i + 1 + j' = i + (j' + 1) := by omega
      rw [harith] at h
      exact h

theorem collectAnswers_isSome (stream : Nat → Nat) :
    ∀ n fuel i answers, n ≤ fuel → 4 ≤ (iterState stream n i answers).length →
      (collectAnswers stream fuel i answers).isSome := by
  intro n
  induction n with
  | zero =>
    intro fuel i answers _ h4
    rw [iterState] at h4
    rw [collectAnswers_done stream fuel i answers h4]
    rfl
  | succ n ih =>
    intro fuel i answers hle h4
    obtain ⟨f, rfl⟩ : ∃ f, fuel = f + 1 := ⟨fuel - 1, by omega⟩
    by_cases hl : answers.length < 4
    · rw [collectAnswers, if_pos hl]
      rw [iterState] at h4
      exact ih f (i + 1) _ (by omega) h4
    · rw [collectAnswers_done stream _ i answers (Nat.not_lt.1 hl)]
      rfl

theorem four_mem_length (l : List String) (w x y z : String)
    (hw : w ∈ l) (hx : x ∈ l) (hy : y ∈ l) (hz : z ∈ l)
    (h1 : w ≠ x) (h2 : w ≠ y) (h3 : w ≠ z) (h4 : x ≠ y) (h5 : x ≠ z) (h6 : y ≠ z) :
    4 ≤ l.length := by
  have hnd : ([w, x, y, z] : List String).Nodup := by
    simp [h1, h2, h3, h4, h5, h6]
  have hsub : ([w, x, y, z] : List String) ⊆ l := by
    intro t ht
    simp only [List.mem_cons, List.not_mem_nil, or_false] at ht
    rcases ht with rfl | rfl | rfl | rfl
    · exact hw
    · exact hx
    · exact hy
    · exact hz
  simpa using (hnd.subperm hsub).length_le

theorem length_le_three (l : List String) (w x y : String)
    (hnd : l.Nodup) (hsub : l ⊆ [w, x, y]) : l.length ≤ 3 := by
  simpa using (hnd.subperm hsub).length_le

theorem repr_inj_small : ∀ x < 19, ∀ y < 19, Nat.repr x = Nat.repr y → x = y := by decide

theorem collectAnswers_stuck (stream : Nat → Nat) (v0 v1 v2 : Nat)
    (h : ∀ i, randint 2 18 (stream i) = v0 ∨ randint 2 18 (stream i) = v1
            ∨ randint 2 18 (stream i) = v2) :
    ∀ fuel i answers, answers.Nodup →
      answers ⊆ [Nat.repr v0, Nat.repr v1, Nat.repr v2] →
      collectAnswers stream fuel i answers = none := by
  intro fuel
  induction fuel with
  | zero =>
    intro i answers hn hs
    have := length_le_three answers _ _ _ hn hs
    simp only [collectAnswers]
    rw [if_pos (by omega)]
  | succ fuel ih =>
    intro i answers hn hs
    have := length_le_three answers _ _ _ hn hs
    rw [collectAnswers, if_pos (by omega)]
    refine ih (i + 1) _ (addAnswer_nodup _ _ hn) (addAnswer_subset _ _ _ hs ?_)
    rcases h i with h' | h' | h' <;> rw [h'] <;> simp

/-- Claim C3: every value returned by the generator satisfies: the question is
built from two integers in [1, 9] whose sum, as a string, is the correct
answer; the options are exactly 4 pairwise-distinct strings; the correct
answer is among them; and every decoy option is the string of an integer in
[2, 18] different from the correct value.  `shuffle` is the external
`random.shuffle` permutation. -/
theorem generate_captcha_spec (stream : Nat → Nat) (fuel : Nat)
    (shuffle : List String → List String) (hsh : ∀ l, (shuffle l).Perm l)
    (q ans : String) (opts : List String)
    (h : generate_captcha stream fuel shuffle = some (q, ans, opts)) :
    ∃ a b, 1 ≤ a ∧ a ≤ 9 ∧ 1 ≤ b ∧ b ≤ 9
      ∧ q = Nat.repr a ++ " + " ++ Nat.repr b ++ " = ?"
      ∧ ans = Nat.repr (a + b)
      ∧ opts.length = 4 ∧ opts.Nodup ∧ ans ∈ opts
      ∧ ∀ o ∈ opts, o ≠ ans → ∃ k, 2 ≤ k ∧ k ≤ 18 ∧ k ≠ a + b ∧ o = Nat.repr k := by
  simp only [generate_captcha] at h
  cases hc : collectAnswers stream fuel 2 [Nat.repr (randint 1 9 (stream 0) + randint 1 9 (stream 1))] with
  | none => rw [hc] at h; simp at h
  | some answers =>
    rw [hc] at h
    simp only [Option.some.injEq, Prod.mk.injEq] at h
    obtain ⟨hq, hans, hopts⟩ := h
    obtain ⟨hp1, hp2, hp3, hp4⟩ := collectAnswers_some_props stream fuel 2 _ answers hc
    have ha := randint_mem 1 9 (stream 0) (by omega)
    have hb := randint_mem 1 9 (stream 1) (by omega)
    have hperm : opts.Perm answers := hopts ▸ hsh answers
    have hlen : answers.length = 4 := hp4 (by simp)
    have hnd : answers.Nodup := hp2 (List.nodup_singleton _)
    refine ⟨randint 1 9 (stream 0), randint 1 9 (stream 1),
            ha.1, ha.2, hb.1, hb.2, hq.symm, hans.symm,
            hperm.length_eq.trans hlen, hperm.nodup_iff.2 hnd, ?_, ?_⟩
    · rw [← hans]
      exact hperm.mem_iff.2 (hp1 _ (List.mem_singleton_self _))
    · intro o ho hne
      rcases hp3 o (hperm.mem_iff.1 ho) with hm | ⟨k, hk2, hk18, hko⟩
      · rw [List.mem_singleton] at hm
        exact absurd (hm.trans hans) hne
      · refine ⟨k, hk2, hk18, fun hk => ?_, hko⟩
        exact hne (by rw [hko, hk, hans])

theorem generate_captcha_spec_witness :
    ∃ a b, 1 ≤ a ∧ a ≤ 9 ∧ 1 ≤ b ∧ b ≤ 9
      ∧ "1 + 2 = ?" = Nat.repr a ++ " + " ++ Nat.repr b ++ " = ?"
      ∧ "3" = Nat.repr (a + b)
      ∧ (["3", "4", "5", "6"] : List String).length = 4
      ∧ (["3", "4", "5", "6"] : List String).Nodup
      ∧ "3" ∈ (["3", "4", "5", "6"] : List String)
      ∧ ∀ o ∈ (["3", "4", "5", "6"] : List String), o ≠ "3" →
          ∃ k, 2 ≤ k ∧ k ≤ 18 ∧ k ≠ a + b ∧ o = Nat.repr k :=
  generate_captcha_spec (fun i => i) 5 id (fun l => List.Perm.refl l)
    "1 + 2 = ?" "3" ["3", "4", "5", "6"] rfl

/-- Claim C10: the option set grows strictly on every draw whose string is not
yet present, and the decoy loop stops as soon as the set reaches size 4; it
terminates (some fuel suffices) for every entropy stream whose loop draws
contain, at three positions, three pairwise-distinct values different from
the correct sum; and for a stream whose loop draws keep repeating fewer than
3 values different from the correct sum — i.e. every draw is the correct sum
itself or one of at most two other values — the generator never returns a
value, whatever the fuel. -/
theorem generate_captcha_termination (stream : Nat → Nat)
    (shuffle : List String → List String) (j1 j2 j3 : Nat)
    (hj1 : 2 ≤ j1) (h12 : j1 < j2) (h23 : j2 < j3)
    (hd12 : randint 2 18 (stream j1) ≠ randint 2 18 (stream j2))
    (hd13 : randint 2 18 (stream j1) ≠ randint 2 18 (stream j3))
    (hd23 : randint 2 18 (stream j2) ≠ randint 2 18 (stream j3))
    (hc1 : randint 2 18 (stream j1) ≠ randint 1 9 (stream 0) + randint 1 9 (stream 1))
    (hc2 : randint 2 18 (stream j2) ≠ randint 1 9 (stream 0) + randint 1 9 (stream 1))
    (hc3 : randint 2 18 (stream j3) ≠ randint 1 9 (stream 0) + randint 1 9 (stream 1)) :
    (∀ answers s, s ∉ answers → (addAnswer answers s).length = answers.length + 1)
  ∧ (∀ fuel i answers, 4 ≤ answers.length →
        collectAnswers stream fuel i answers = some answers)
  ∧ (∃ fuel, (generate_captcha stream fuel shuffle).isSome)
  ∧ (∀ (stream2 : Nat → Nat) (shuffle2 : List String → List String) (v1 v2 : Nat),
        (∀ i, randint 2 18 (stream2 i) = randint 1 9 (stream2 0) + randint 1 9 (stream2 1)
            ∨ randint 2 18 (stream2 i) = v1 ∨ randint 2 18 (stream2 i) = v2) →
        ∀ fuel, generate_captcha stream2 fuel shuffle2 = none) := by
  refine ⟨addAnswer_length_of_not_mem, collectAnswers_done stream, ?_, ?_⟩
  · set c := randint 1 9 (stream 0) + randint 1 9 (stream 1) with hc
    have hcr : 2 ≤ c ∧ c ≤ 18 := by
      have h0 := randint_mem 1 9 (stream 0) (by omega)
      have h1 := randint_mem 1 9 (stream 1) (by omega)
      omega
    have hdr1 := randint_mem 2 18 (stream j1) (by omega)
    have hdr2 := randint_mem 2 18 (stream j2) (by omega)
    have hdr3 := randint_mem 2 18 (stream j3) (by omega)
    have hrne : ∀ x y : Nat, x ≤ 18 → y ≤ 18 → x ≠ y → Nat.repr x ≠ Nat.repr y :=
      fun x y hx hy hne he => hne (repr_inj_small x (by omega) y (by omega) he)
    set n := j3 - 1 with hn
    have hmem : ∀ j, 2 ≤ j → j ≤ j3 →
        Nat.repr (randint 2 18 (stream j)) ∈ iterState stream n 2 [Nat.repr c] := by
      intro j hj2 hjle
      have h := draw_mem_iterState stream n 2 [Nat.repr c] (j - 2) (by omega)
      rw [show 2 + (j - 2) = j from by omega] at h
      exact h
    have h4 : 4 ≤ (iterState stream n 2 [Nat.repr c]).length := by
      refine four_mem_length _ (Nat.repr c) (Nat.repr (randint 2 18 (stream j1)))
        (Nat.repr (randint 2 18 (stream j2))) (Nat.repr (randint 2 18 (stream j3)))
        (mem_iterState stream n 2 _ _ (List.mem_singleton_self _))
        (hmem j1 hj1 (by omega)) (hmem j2 (by omega) (by omega)) (hmem j3 (by omega) (by omega))
        ?_ ?_ ?_ ?_ ?_ ?_
      · exact hrne c _ hcr.2 hdr1.2 (fun he => hc1 he.symm)
      · exact hrne c _ hcr.2 hdr2.2 (fun he => hc2 he.symm)
      · exact hrne c _ hcr.2 hdr3.2 (fun he => hc3 he.symm)
      · exact hrne _ _ hdr1.2 hdr2.2 hd12
      · exact hrne _ _ hdr1.2 hdr3.2 hd13
      · exact hrne _ _ hdr2.2 hdr3.2 hd23
    have hsome := collectAnswers_isSome stream n n 2 [Nat.repr c] (le_refl n) h4
    refine ⟨n, ?_⟩
    obtain ⟨res, hres⟩ := Option.isSome_iff_exists.1 hsome
    simp only [generate_captcha]
    rw [← hc, hres]
    rfl
  · intro stream2 shuffle2 v1 v2 hrep fuel
    have hnone := collectAnswers_stuck stream2
      (randint 1 9 (stream2 0) + randint 1 9 (stream2 1)) v1 v2 hrep fuel 2
      [Nat.repr (randint 1 9 (stream2 0) + randint 1 9 (stream2 1))]
      (List.nodup_singleton _) (by intro x hx; rw [List.mem_singleton] at hx; rw [hx]; simp)
    simp only [generate_captcha]
    rw [hnone]

theorem generate_captcha_termination_witness :
    (∃ fuel, (generate_captcha (fun i => i) fuel id).isSome)
  ∧ (∀ fuel, generate_captcha (fun i => i % 3) fuel id = none) :=
  have h := generate_captcha_termination (fun i => i) id 2 3 4
    (by decide) (by decide) (by decide) (by decide) (by decide) (by decide)
    (by decide) (by decide) (by decide)
  ⟨h.2.2.1, fun fuel => h.2.2.2 (fun i => i % 3) id 2 4
    (fun i => by simp only [randint]; omega) fuel⟩

end Captcha
